import Mathlib

/-!
Verification of the taskmasterbot core subsystems against their
natural-language specification.

The development is a shallow embedding of the relevant Python source:

* `app/services/notification_settings.py` — preference resolver
  (`is_quiet_hours`, `should_send_notification`);
* `app/services/notifications.py` — deadline notification scheduler
  (dedup log, window classification, the four send helpers, the scan);
* `app/handlers/core.py` — `callback_take_task` (the claim operation);
* `app/handlers/statuses.py` — reopen flow
  (`callback_reopen_task`, `process_reopen_comment`);
* `app/handlers/photos.py` — debounced photo-upload aggregator and the
  immediate-persistence behaviour of attachment events;
* `app/services/task_history.py` / `app/database.py` — history rows.

Timestamps are rationals (seconds); times of day are minutes since
midnight.  The SQLite store is a record of association lists.  The
messaging gateway and the fallibility of store reads are an explicit
environment (`Env`): `deliver_ok` tells which chat ids accept a send
(an exception from `bot.send_message` is a failed delivery), and
`check_fails` / `mark_fails` tell which notification-log reads/writes
raise (a raising read propagates, exactly as the unguarded
`check_notification_sent`; a raising write is swallowed, exactly as the
`try/except` inside `mark_notification_sent`).
-/

deriving instance DecidableEq for Except

namespace TaskMaster

/-- A row of the `users` table (`app/database.py`): only the columns the
claims need. Roles are the literal strings `"admin"` / `"employee"`. -/
structure User where
  id : Nat
  telegram_id : String
  role : String
  deriving DecidableEq, Repr

/-- A row of the `tasks` table (`app/database.py`): the columns the claims
need. `due_date` is a timezone-qualified timestamp in seconds; statuses are
the literal strings of the source. `photo_file_id` is the legacy single
completion-photo column; the multi-photo attachments live in `task_photos`. -/
structure Task where
  id : Nat
  status : String
  priority : String
  due_date : Option ℚ
  assigned_to_id : Option Nat
  created_by_id : Option Nat
  completion_comment : Option String
  photo_file_id : Option String
  deriving DecidableEq, Repr

/-- A row of `task_history` (`app/database.py` lines 201-219). -/
structure HistoryRow where
  task_id : Nat
  user_id : Nat
  change_type : String
  deriving DecidableEq, Repr

/-- The persistent store: `tasks`, `users`, the notification dedup log
`task_notifications` (rows `(task_id, notification_type)`, unique), the
attachment table `task_photos` (rows `(task_id, photo_file_id)`) and
`task_history`. -/
structure DB where
  tasks : List Task
  users : List User
  task_notifications : List (Nat × String)
  task_photos : List (Nat × String)
  task_history : List HistoryRow
  deriving DecidableEq, Repr

/-- A message pushed through the Telegram gateway: recipient chat id and a
body tag (for the reopen flow the body is the admin's comment text). -/
structure Msg where
  chat : String
  body : String
  deriving DecidableEq, Repr

/-- The environment of a scheduler scan: which chat ids accept a delivery,
and which `(task_id, kind)` log reads / log writes raise a persistence
error. -/
structure Env where
  deliver_ok : String → Bool
  check_fails : Nat → String → Bool
  mark_fails : Nat → String → Bool

/-- The all-successful environment: every delivery succeeds, no store
operation raises. -/
def envOk : Env :=
  ⟨fun _ => true, fun _ _ => false, fun _ _ => false⟩

/-! ## Preference resolver (`app/services/notification_settings.py`) -/

/-- A row of `user_notification_settings`: five boolean toggles and the
quiet-hours window, parsed from `'%H:%M'` into minutes since midnight
(string comparison of `datetime.time` values is the numeric comparison of
minute counts). -/
structure NotificationSettings where
  enable_24h_reminder : Bool
  enable_3h_reminder : Bool
  enable_1h_reminder : Bool
  enable_overdue_notifications : Bool
  enable_comment_notifications : Bool
  quiet_hours_start : Nat
  quiet_hours_end : Nat
  deriving DecidableEq, Repr

/-- `create_default_settings` (lines 55-95): all toggles on, quiet hours
`'22:00'`-`'08:00'`. -/
def create_default_settings : NotificationSettings :=
  ⟨true, true, true, true, true, 22 * 60, 8 * 60⟩

/-- `is_quiet_hours` (lines 129-152): with `start > end` the window wraps
past midnight (`current >= start or current < end`), otherwise it is
`start <= current < end`. `now_tod` is the current time of day in minutes. -/
def is_quiet_hours (s : NotificationSettings) (now_tod : Nat) : Bool :=
  if s.quiet_hours_start > s.quiet_hours_end then
    decide (now_tod ≥ s.quiet_hours_start) || decide (now_tod < s.quiet_hours_end)
  else
    decide (s.quiet_hours_start ≤ now_tod) && decide (now_tod < s.quiet_hours_end)

/-- `should_send_notification` (lines 155-186): quiet hours suppress every
kind; otherwise the kind's own toggle decides; an unknown kind defaults to
send. The source looks the settings row up by user id; here the row is
passed in. -/
def should_send_notification (s : NotificationSettings) (now_tod : Nat)
    (notification_type : String) : Bool :=
  if is_quiet_hours s now_tod then false
  else if notification_type = "24h" then s.enable_24h_reminder
  else if notification_type = "3h" then s.enable_3h_reminder
  else if notification_type = "1h" then s.enable_1h_reminder
  else if notification_type = "overdue" then s.enable_overdue_notifications
  else if notification_type = "comment" then s.enable_comment_notifications
  else true

/-! ## Deadline notification scheduler (`app/services/notifications.py`) -/

/-- `check_notification_sent` (lines 17-43): counts rows of
`task_notifications` matching `(task_id, notification_type)`. The read has
no exception handler, so a raising store propagates (`Except.error`). -/
def check_notification_sent (env : Env) (db : DB) (task_id : Nat)
    (notification_type : String) : Except Unit Bool :=
  if env.check_fails task_id notification_type then .error ()
  else .ok (decide ((task_id, notification_type) ∈ db.task_notifications))

/-- `mark_notification_sent` (lines 46-71): `INSERT OR IGNORE` of
`(task_id, notification_type)` — an idempotent insert-if-absent against the
`UNIQUE(task_id, notification_type)` constraint. Its own `try/except` rolls
back and swallows a raising write, leaving the log unchanged. -/
def mark_notification_sent (env : Env) (db : DB) (task_id : Nat)
    (notification_type : String) : DB :=
  if env.mark_fails task_id notification_type then db
  else if (task_id, notification_type) ∈ db.task_notifications then db
  else { db with
    task_notifications := db.task_notifications ++ [(task_id, notification_type)] }

/-- The SQL filter shared by all four getters:
`status NOT IN ('completed','partially_completed','rejected')`. -/
def active_status (st : String) : Bool :=
  !(["completed", "partially_completed", "rejected"].contains st)

/-- The inner `JOIN users u ON t.assigned_to_id = u.id` of the getters: a
task row joins only when it has an assignee present in `users`. -/
def join_assignee (db : DB) (t : Task) : Option User :=
  t.assigned_to_id.bind fun uid => db.users.find? fun u => u.id == uid

/-- The rows every getter starts from: active tasks with a non-null
`due_date`, inner-joined to their assignee. -/
def scan_rows (db : DB) : List (Task × User) :=
  (db.tasks.filter fun t => active_status t.status && t.due_date.isSome).filterMap
    fun t => (join_assignee db t).map fun u => (t, u)

/-- `time_until.total_seconds() / 3600` of the getters. -/
def hours_until (d now : ℚ) : ℚ := (d - now) / 3600

/-- `time_until.total_seconds() / 60` of `get_tasks_for_1h_reminder`. -/
def minutes_until (d now : ℚ) : ℚ := (d - now) / 60

/-- `7 <= hours_until <= 9` (line 122). -/
def in_24h_window (d now : ℚ) : Bool :=
  decide (7 ≤ hours_until d now) && decide (hours_until d now ≤ 9)

/-- `3.5 <= hours_until <= 4.5` (line 181). -/
def in_3h_window (d now : ℚ) : Bool :=
  decide (7 / 2 ≤ hours_until d now) && decide (hours_until d now ≤ 9 / 2)

/-- `1 <= minutes_until <= 60` (line 242). -/
def in_1h_window (d now : ℚ) : Bool :=
  decide (1 ≤ minutes_until d now) && decide (minutes_until d now ≤ 60)

/-- `time_diff.total_seconds() > 0 and time_diff.days < 1` (line 299),
where `timedelta.days` is the floor of the difference in days. -/
def overdue_window (d now : ℚ) : Bool :=
  decide (0 < now - d) && decide (Int.floor ((now - d) / 86400) < 1)

/-- `get_tasks_for_24h_reminder` (lines 74-130). -/
def get_tasks_for_24h_reminder (db : DB) (now : ℚ) : List (Task × User) :=
  (scan_rows db).filter fun tu =>
    match tu.1.due_date with
    | some d => in_24h_window d now
    | none => false

/-- `get_tasks_for_3h_reminder` (lines 133-189). -/
def get_tasks_for_3h_reminder (db : DB) (now : ℚ) : List (Task × User) :=
  (scan_rows db).filter fun tu =>
    match tu.1.due_date with
    | some d => in_3h_window d now
    | none => false

/-- `get_tasks_for_1h_reminder` (lines 192-250); note it never reads
`task_notifications`. -/
def get_tasks_for_1h_reminder (db : DB) (now : ℚ) : List (Task × User) :=
  (scan_rows db).filter fun tu =>
    match tu.1.due_date with
    | some d => in_1h_window d now
    | none => false

/-- `get_overdue_tasks` (lines 253-307). -/
def get_overdue_tasks (db : DB) (now : ℚ) : List (Task × User) :=
  (scan_rows db).filter fun tu =>
    match tu.1.due_date with
    | some d => overdue_window d now
    | none => false

/-- `get_all_admins` (lines 310-332). -/
def get_all_admins (db : DB) : List String :=
  (db.users.filter fun u => u.role == "admin").map fun u => u.telegram_id

/-- `send_24h_reminder` (lines 335-382): skip when the log has the row or
the preferences veto; `mark_notification_sent` runs inside the `try`, right
after `bot.send_message` succeeded, so a failed delivery writes no row. -/
def send_24h_reminder (env : Env) (settingsOf : Nat → NotificationSettings)
    (now_tod : Nat) (db : DB) (tu : Task × User) : Except Unit (DB × List Msg) :=
  match check_notification_sent env db tu.1.id "24h" with
  | .error e => .error e
  | .ok already =>
    if already then .ok (db, [])
    else if !(should_send_notification (settingsOf tu.2.id) now_tod "24h") then
      .ok (db, [])
    else if env.deliver_ok tu.2.telegram_id then
      .ok (mark_notification_sent env db tu.1.id "24h",
        [⟨tu.2.telegram_id, "24h"⟩])
    else .ok (db, [])

/-- `send_3h_reminder` (lines 385-432): same shape as the 8h helper. -/
def send_3h_reminder (env : Env) (settingsOf : Nat → NotificationSettings)
    (now_tod : Nat) (db : DB) (tu : Task × User) : Except Unit (DB × List Msg) :=
  match check_notification_sent env db tu.1.id "3h" with
  | .error e => .error e
  | .ok already =>
    if already then .ok (db, [])
    else if !(should_send_notification (settingsOf tu.2.id) now_tod "3h") then
      .ok (db, [])
    else if env.deliver_ok tu.2.telegram_id then
      .ok (mark_notification_sent env db tu.1.id "3h",
        [⟨tu.2.telegram_id, "3h"⟩])
    else .ok (db, [])

/-- `send_1h_reminder` (lines 435-485): no dedup check and no
`mark_notification_sent` call at all — only the preference gate and the
delivery attempt. -/
def send_1h_reminder (env : Env) (settingsOf : Nat → NotificationSettings)
    (now_tod : Nat) (db : DB) (tu : Task × User) : Except Unit (DB × List Msg) :=
  if !(should_send_notification (settingsOf tu.2.id) now_tod "1h") then .ok (db, [])
  else if env.deliver_ok tu.2.telegram_id then
    .ok (db, [⟨tu.2.telegram_id, "1h"⟩])
  else .ok (db, [])

/-- `send_overdue_notification` (lines 488-575): dedup check, then the
assignee's preference gate; the executor send and each admin send sit in
their own `try/except`; `mark_notification_sent` runs unconditionally at
line 575, after the attempts, whatever their outcome. -/
def send_overdue_notification (env : Env) (settingsOf : Nat → NotificationSettings)
    (now_tod : Nat) (db : DB) (tu : Task × User) : Except Unit (DB × List Msg) :=
  match check_notification_sent env db tu.1.id "overdue" with
  | .error e => .error e
  | .ok already =>
    if already then .ok (db, [])
    else if !(should_send_notification (settingsOf tu.2.id) now_tod "overdue") then
      .ok (db, [])
    else
      let executor_msgs :=
        if env.deliver_ok tu.2.telegram_id then
          [(⟨tu.2.telegram_id, "overdue"⟩ : Msg)] else []
      let admin_msgs := (get_all_admins db).filterMap fun a =>
        if env.deliver_ok a then some (⟨a, "overdue_admin"⟩ : Msg) else none
      .ok (mark_notification_sent env db tu.1.id "overdue",
        executor_msgs ++ admin_msgs)

/-- One `for task in tasks: await send_...` loop of
`check_and_send_notifications`: the loop body has no exception handler, so
the first raising send abandons the rest of the list (flag `false`). -/
def run_sends (f : DB → Task × User → Except Unit (DB × List Msg)) :
    List (Task × User) → DB → DB × List Msg × Bool
  | [], db => (db, [], true)
  | tu :: rest, db =>
    match f db tu with
    | .error _ => (db, [], false)
    | .ok (db', ms) =>
      let r := run_sends f rest db'
      (r.1, ms ++ r.2.1, r.2.2)

/-- `check_and_send_notifications` (lines 578-615): the four kind loops run
in order 8h, 4h, 1h, overdue inside a single `try`; an exception anywhere
aborts the remainder of the scan and is logged at line 615 (flag `false`).
Each getter re-reads the store after the previous loop. -/
def check_and_send_notifications (env : Env) (settingsOf : Nat → NotificationSettings)
    (now : ℚ) (now_tod : Nat) (db : DB) : DB × List Msg × Bool :=
  let r1 := run_sends (send_24h_reminder env settingsOf now_tod)
    (get_tasks_for_24h_reminder db now) db
  if r1.2.2 = false then r1 else
  let r2 := run_sends (send_3h_reminder env settingsOf now_tod)
    (get_tasks_for_3h_reminder r1.1 now) r1.1
  if r2.2.2 = false then (r2.1, r1.2.1 ++ r2.2.1, false) else
  let r3 := run_sends (send_1h_reminder env settingsOf now_tod)
    (get_tasks_for_1h_reminder r2.1 now) r2.1
  if r3.2.2 = false then (r3.1, r1.2.1 ++ r2.2.1 ++ r3.2.1, false) else
  let r4 := run_sends (send_overdue_notification env settingsOf now_tod)
    (get_overdue_tasks r3.1 now) r3.1
  (r4.1, r1.2.1 ++ r2.2.1 ++ r3.2.1 ++ r4.2.1, r4.2.2)

/-! ## Task claim (`app/handlers/core.py`, `callback_take_task`) -/

/-- Outcome of a take-task request, matching the `callback.answer` paths of
the handler: `alreadyAssigned` is the conflict alert of line 800. -/
inductive TakeResult where
  | notFound
  | adminRefused
  | alreadyAssigned
  | success
  deriving DecidableEq, Repr

/-- The SET clause of the claim UPDATE:
`SET assigned_to_id = ?, status = 'in_progress'`. -/
def claim_row (uid : Nat) (t : Task) : Task :=
  { t with assigned_to_id := some uid, status := "in_progress" }

/-- The handler's UPDATE statement (lines 803-807):
`UPDATE tasks SET assigned_to_id = ?, status = 'in_progress', updated_at = datetime('now') WHERE id = ?`
— the WHERE clause matches on id alone. Returns the new store and the
number of affected rows. -/
def take_task_update (db : DB) (uid tid : Nat) : DB × Nat :=
  ({ db with tasks := db.tasks.map fun t =>
      if t.id == tid then claim_row uid t else t },
   (db.tasks.filter fun t => t.id == tid).length)

/-- `callback_take_task` (lines 749-811): admins are refused; the task row
is read (line 775), the null-assignee check runs in application code
(line 798), and only then the unconditional update executes. There is no
suspension point between the read and the commit, so the block is one
atomic step on the event loop; the affected-row count is never inspected. -/
def callback_take_task (db : DB) (requestor : User) (tid : Nat) : DB × TakeResult :=
  if requestor.role == "admin" then (db, .adminRefused)
  else
    match db.tasks.find? (fun t => t.id == tid) with
    | none => (db, .notFound)
    | some t =>
      if t.assigned_to_id.isSome then (db, .alreadyAssigned)
      else ((take_task_update db requestor.id tid).1, .success)

/-- Modelled from the spec (refinement comparison only, not from the
source): the conditional claim
`UPDATE task SET assignee=:u, status='in_progress' WHERE id=:t AND assignee IS NULL`
with its affected-row count. -/
def conditional_claim_spec (db : DB) (uid tid : Nat) : DB × Nat :=
  ({ db with tasks := db.tasks.map fun t =>
      if t.id == tid && t.assigned_to_id.isNone then claim_row uid t else t },
   (db.tasks.filter fun t => t.id == tid && t.assigned_to_id.isNone).length)

/-! ## Reopen flow (`app/handlers/statuses.py`) -/

/-- Outcome of `callback_reopen_task`, matching its answer paths. -/
inductive ReopenStartResult where
  | deniedNotAdmin
  | notFound
  | notCompleted
  | promptForComment
  deriving DecidableEq, Repr

/-- `callback_reopen_task` (lines 275-358): admin-only; the task must
currently be `completed` or `partially_completed`, otherwise the request is
rejected; on success the flow waits for the admin's comment. -/
def callback_reopen_task (db : DB) (requestor : User) (tid : Nat) : ReopenStartResult :=
  if !(requestor.role == "admin") then .deniedNotAdmin
  else
    match db.tasks.find? (fun t => t.id == tid) with
    | none => .notFound
    | some t =>
      if t.status == "completed" || t.status == "partially_completed" then
        .promptForComment
      else .notCompleted

/-- `add_task_history_entry` (`app/services/task_history.py` lines 13-48):
appends a row to `task_history`. The schema's CHECK constraint
(`app/database.py` line 205) and the history formatter both know the
change type `'reopened'`, but the reopen handler never calls this
function. -/
def add_task_history_entry (db : DB) (task_id user_id : Nat) (change_type : String) : DB :=
  { db with task_history := db.task_history ++ [⟨task_id, user_id, change_type⟩] }

/-- `process_reopen_comment` (lines 361-500): re-checks the admin role, then
runs `UPDATE tasks SET status='in_progress', completion_comment=NULL,
photo_file_id=NULL WHERE id=?` (lines 416-425) and notifies the joined
assignee with the admin's comment (lines 436-481; a failed send is caught
and logged). It touches neither `task_history` nor `task_photos`. -/
def process_reopen_comment (db : DB) (requestor : User) (tid : Nat)
    (comment : String) : DB × List Msg :=
  if !(requestor.role == "admin") then (db, [])
  else
    match db.tasks.find? (fun t => t.id == tid) with
    | none => (db, [])
    | some t =>
      let db' := { db with tasks := db.tasks.map fun x =>
        if x.id == tid then
          { x with status := "in_progress", completion_comment := none,
                   photo_file_id := none }
        else x }
      let msgs :=
        match join_assignee db t with
        | some u => [(⟨u.telegram_id, comment⟩ : Msg)]
        | none => []
      (db', msgs)

/-! ## Debounced photo-upload aggregator (`app/handlers/photos.py`) -/

/-- A scheduled `show_task_photo_menu_after_delay` coroutine: the handle
id, the `time.time()` token the coroutine drew for itself at line 482, and
whether a later event cancelled it. -/
structure DelayedMenuAction where
  aid : Nat
  act_token : Nat
  cancelled : Bool
  deriving DecidableEq, Repr

/-- The single-key aggregator state. `counter` abstracts the strictly
increasing wall clock behind `time.time()` (each call returns a fresh,
larger value); `stored` is the `_pending_photo_menus[key]` entry
`(task handle, registration timestamp)`; `live` holds the scheduled delayed
actions; `prompts` records the counts reported by prompt menus that
actually fired. -/
structure AggState where
  counter : Nat
  stored : Option (Nat × Nat)
  live : List DelayedMenuAction
  prompts : List Nat
  deriving DecidableEq, Repr

/-- The empty aggregator: no pending entry, no scheduled action. -/
def AggState.init : AggState := ⟨0, none, [], []⟩

/-- One `time.time()` call. -/
def draw_time (s : AggState) : Nat × AggState :=
  (s.counter, { s with counter := s.counter + 1 })

/-- The registration steps of `add_photo_to_task` (lines 670-682) and
`create_task_with_photo` (lines 1084-1096): cancel the previous pending
action for the key, draw `task_timestamp = time.time()` in the handler,
`asyncio.create_task(show_task_photo_menu_after_delay ...)` and store
`(task_menu, task_timestamp)` in `_pending_photo_menus`; the coroutine then
starts and draws its own `task_timestamp = time.time()` at line 482 — a
later call of the clock, hence a different value. The created handle is
identified by its registration instant. -/
def register_photo_menu (s : AggState) : AggState :=
  let live := match s.stored with
    | some (aid, _) =>
      s.live.map fun a => if a.aid == aid then { a with cancelled := true } else a
    | none => s.live
  let s0 := { s with live := live }
  let (reg_ts, s1) := draw_time s0
  let (act_ts, s2) := draw_time s1
  { s2 with stored := some (reg_ts, reg_ts),
            live := s2.live ++ [⟨reg_ts, act_ts, false⟩] }

/-- The wake-up path of `show_task_photo_menu_after_delay` (lines 488-559):
a cancelled sleep re-raises, and its cleanup deletes the entry only when
the stored registration timestamp equals the coroutine's own token
(lines 490-496); an uncancelled wake-up skips when the key is gone
(lines 501-503) or when the stored timestamp differs from the coroutine's
own token (lines 505-508); otherwise it deletes the entry and shows the
prompt menu reporting the total persisted photo count (lines 510-551). -/
def show_task_photo_menu_after_delay (s : AggState) (a : DelayedMenuAction)
    (count : Nat) : AggState :=
  if a.cancelled then
    match s.stored with
    | some (_, reg_ts) =>
      if reg_ts == a.act_token then { s with stored := none } else s
    | none => s
  else
    match s.stored with
    | none => s
    | some (_, reg_ts) =>
      if !(reg_ts == a.act_token) then s
      else { s with stored := none, prompts := s.prompts ++ [count] }

/-- A burst of `n` photo events with gaps shorter than the delay (each new
event cancels the previous action), after which every scheduled action
reaches its wake-up point in order; a fired menu would report the full
persisted photo count `n`. -/
def run_photo_burst (n : Nat) : AggState :=
  let s := (List.range n).foldl (fun st _ => register_photo_menu st) AggState.init
  s.live.foldl (fun st a => show_task_photo_menu_after_delay st a n) s

/-! ## Attachment persistence (`app/handlers/photos.py`) -/

/-- The store write of `add_photo_to_task` (lines 634-649): after the task
existence check, `INSERT INTO task_photos (task_id, photo_file_id)` plus
commit, executed before the delayed-menu registration; the write does not
consult the debounce state. -/
def add_photo_to_task (db : DB) (s : AggState) (task_id : Nat)
    (photo_file_id : String) : Option (DB × AggState) :=
  match db.tasks.find? (fun t => t.id == task_id) with
  | none => none
  | some _ =>
    some ({ db with task_photos := db.task_photos ++ [(task_id, photo_file_id)] },
          register_photo_menu s)

/-- `process_completion_photo` (lines 324-367): the completion-flow photo is
appended to the `completion_photos` list held in the aiogram FSM context —
`MemoryStorage` (`app/main.py` line 18), in-process memory — and the store
is not written. -/
def process_completion_photo (db : DB) (completion_photos : List String)
    (photo_file_id : String) : DB × List String :=
  (db, completion_photos ++ [photo_file_id])

/-- The store write of `callback_photo_no` (lines 124-141), the
completion-flow finish: status, comment and the first accumulated photo go
to the task row, and every accumulated photo is inserted into
`task_photos`. -/
def callback_photo_no_save (db : DB) (task_id : Nat) (new_status comment : String)
    (completion_photos : List String) : DB :=
  { db with
    tasks := db.tasks.map fun t =>
      if t.id == task_id then
        { t with status := new_status, completion_comment := some comment,
                 photo_file_id := completion_photos.head? }
      else t,
    task_photos := db.task_photos ++ completion_photos.map fun p => (task_id, p) }

/-! ## Concrete fixtures for witnesses and counterexamples -/

/-- An admin user. -/
def admin1 : User := ⟨1, "tgA", "admin"⟩

/-- An employee user. -/
def employee1 : User := ⟨5, "tg5", "employee"⟩

/-- A second employee user. -/
def employee2 : User := ⟨6, "tg6", "employee"⟩

/-- A task already assigned to user 7. -/
def assigned_task : Task := ⟨1, "in_progress", "medium", some 1000, some 7, some 1, none, none⟩

/-- Store holding `assigned_task`. -/
def db_assigned : DB := ⟨[assigned_task], [admin1, employee1, employee2], [], [], []⟩

/-- An unassigned pending task. -/
def free_task : Task := ⟨2, "pending", "high", some 2000, none, some 1, none, none⟩

/-- Store holding `free_task`. -/
def db_free : DB := ⟨[free_task], [admin1, employee1, employee2], [], [], []⟩

/-- The assignee of the completed task of the reopen scenario. -/
def reopen_assignee : User := ⟨2, "tgB", "employee"⟩

/-- The spec's reopen scenario task: completed, comment `"done"`, one
attachment `"x"` (legacy column and `task_photos` row). -/
def completed_task : Task := ⟨1, "completed", "medium", some 1000, some 2, some 1, some "done", some "x"⟩

/-- Store for the reopen scenario. -/
def db_completed : DB := ⟨[completed_task], [admin1, reopen_assignee], [], [(1, "x")], []⟩

/-- A task 100 seconds past its due date. -/
def overdue_task : Task := ⟨4, "in_progress", "high", some 100, some 5, some 1, none, none⟩

/-- Store holding `overdue_task` (now = 200 seconds). -/
def db_overdue : DB := ⟨[overdue_task], [admin1, employee1], [], [], []⟩

/-- Every user has the default notification settings. -/
def default_settings_of : Nat → NotificationSettings := fun _ => create_default_settings

/-- Every user has overdue notifications disabled. -/
def disabled_overdue_of : Nat → NotificationSettings :=
  fun _ => { create_default_settings with enable_overdue_notifications := false }

/-- Environment where every delivery fails and no store operation raises. -/
def env_deliver_fail : Env := ⟨fun _ => false, fun _ _ => false, fun _ _ => false⟩

/-- A task due in 8 hours (due 28800, now 0) assigned to `employee1`. -/
def t8a : Task := ⟨11, "in_progress", "medium", some 28800, some 5, some 1, none, none⟩

/-- A second task due in 8 hours, assigned to `employee2`. -/
def t8b : Task := ⟨12, "in_progress", "medium", some 28800, some 6, some 1, none, none⟩

/-- Store with the two 8h-window tasks. -/
def db_two : DB := ⟨[t8a, t8b], [admin1, employee1, employee2], [], [], []⟩

/-- Environment where the notification-log read raises for `(11, "24h")`. -/
def env_break_check : Env :=
  ⟨fun _ => true, fun tid k => tid == 11 && k == "24h", fun _ _ => false⟩

/-- Environment where delivery to `employee1`'s chat fails and nothing
else does. -/
def env_fail_first_chat : Env :=
  ⟨fun c => !(c == "tg5"), fun _ _ => false, fun _ _ => false⟩

/-- An active pending task due in 8 hours with no assignee. -/
def free8_task : Task := ⟨21, "pending", "medium", some 28800, none, some 1, none, none⟩

/-- Store holding `free8_task`. -/
def db_free8 : DB := ⟨[free8_task], [admin1, employee1], [], [], []⟩

/-- An in-progress task used by the photo-flow fixtures. -/
def inprog_task : Task := ⟨3, "in_progress", "low", some 5000, some 5, some 1, none, none⟩

/-- Store holding `inprog_task`. -/
def db_inprog : DB := ⟨[inprog_task], [admin1, employee1], [], [], []⟩

/-- Store with the two 8h tasks and an existing `(11, "24h")` dedup row. -/
def db_logged : DB := ⟨[t8a, t8b], [admin1, employee1, employee2], [(11, "24h")], [], []⟩

/-- `db_two` after the 8h loop of a tick in which only `employee2` was
reachable: one new dedup row. -/
def db_two_after : DB := ⟨[t8a, t8b], [admin1, employee1, employee2], [(12, "24h")], [], []⟩

/-- A task due in 45 minutes (due 2700, now 0), assigned to `employee1`. -/
def t45 : Task := ⟨31, "in_progress", "medium", some 2700, some 5, some 1, none, none⟩

/-- Store holding `t45` with dedup rows already present for every deduped
kind — prior sends that must not stop the 1h alert. -/
def db_45 : DB :=
  ⟨[t45], [admin1, employee1], [(31, "24h"), (31, "3h"), (31, "overdue")], [], []⟩

/-- Invariant of an aggregator run: the clock is even between events, every
scheduled action's self-drawn token is odd, the stored registration
timestamp is even, and no prompt has fired yet. -/
def agg_inv (s : AggState) : Prop :=
  s.counter % 2 = 0 ∧
  (∀ a ∈ s.live, a.act_token % 2 = 1) ∧
  (∀ k r, s.stored = some (k, r) → r % 2 = 0) ∧
  s.prompts = []

/-! ## C9 theorem -/

/-- C9: a send is skipped when the kind is disabled in the user's
preferences or when now is inside the quiet-hours window; a window with
`start > end` wraps past midnight and denotes `[start, 24:00) ∪ [00:00, end)`;
with quiet hours 22:00-08:00 no send happens at 23:30 or 02:00, but the same
kind is sendable at 09:00. -/
theorem quiet_hours_and_toggles_gate_sends :
    (∀ (s : NotificationSettings) (now_tod : Nat) (k : String),
      is_quiet_hours s now_tod = true →
      should_send_notification s now_tod k = false) ∧
    (∀ (s : NotificationSettings) (now_tod : Nat),
      (s.enable_24h_reminder = false →
        should_send_notification s now_tod "24h" = false) ∧
      (s.enable_3h_reminder = false →
        should_send_notification s now_tod "3h" = false) ∧
      (s.enable_1h_reminder = false →
        should_send_notification s now_tod "1h" = false) ∧
      (s.enable_overdue_notifications = false →
        should_send_notification s now_tod "overdue" = false)) ∧
    (∀ (s : NotificationSettings) (now_tod : Nat),
      s.quiet_hours_start > s.quiet_hours_end → now_tod < 24 * 60 →
      (is_quiet_hours s now_tod = true ↔
        (s.quiet_hours_start ≤ now_tod ∧ now_tod < 24 * 60) ∨
        now_tod < s.quiet_hours_end)) ∧
    (is_quiet_hours create_default_settings (23 * 60 + 30) = true ∧
     should_send_notification create_default_settings (23 * 60 + 30) "24h" = false ∧
     is_quiet_hours create_default_settings (2 * 60) = true ∧
     should_send_notification create_default_settings (2 * 60) "24h" = false ∧
     is_quiet_hours create_default_settings (9 * 60) = false ∧
     should_send_notification create_default_settings (9 * 60) "24h" = true) := by
  refine ⟨?_, ?_, ?_, by decide⟩
  · intro s now_tod k hq
    simp [should_send_notification, hq]
  · intro s now_tod
    refine ⟨?_, ?_, ?_, ?_⟩ <;> intro h <;>
      simp [should_send_notification, h]
  · intro s now_tod hw hday
    constructor
    · intro h
      simp only [is_quiet_hours, if_pos hw, Bool.or_eq_true, decide_eq_true_eq] at h
      rcases h with h | h
      · exact Or.inl ⟨h, hday⟩
      · exact Or.inr h
    · intro h
      simp only [is_quiet_hours, if_pos hw, Bool.or_eq_true, decide_eq_true_eq]
      rcases h with ⟨h, _⟩ | h
      · exact Or.inl h
      · exact Or.inr h

/-- Witness for C9 at concrete inputs: a disabled 8h toggle suppresses the
send, and quiet hours 22:00-08:00 are active at 23:30. -/
theorem quiet_hours_and_toggles_gate_sends_witness :
    should_send_notification
        { create_default_settings with enable_24h_reminder := false }
        (12 * 60) "24h" = false ∧
    should_send_notification create_default_settings (23 * 60 + 30) "24h" = false ∧
    (is_quiet_hours create_default_settings 1410 = true ↔
      (create_default_settings.quiet_hours_start ≤ 1410 ∧ 1410 < 24 * 60) ∨
      1410 < create_default_settings.quiet_hours_end) := by
  refine ⟨?_, ?_, ?_⟩
  · exact (quiet_hours_and_toggles_gate_sends.2.1
      { create_default_settings with enable_24h_reminder := false } (12 * 60)).1 rfl
  · exact quiet_hours_and_toggles_gate_sends.1 create_default_settings
      (23 * 60 + 30) "24h" (by decide)
  · exact quiet_hours_and_toggles_gate_sends.2.2.1 create_default_settings 1410
      (by decide) (by decide)

/-! ## C1: claiming an unassigned task -/

/-- C1 counterexample: the take-task UPDATE (`WHERE id = ?` only), applied
to a task whose assignee is user 7, affects one row and overwrites the
assignee with the requestor, where the spec's conditional update
(`... AND assignee IS NULL`) affects zero rows and changes nothing; the
handler never inspects the affected-row count, so no zero-row ConflictError
path exists. -/
theorem take_task_update_unconditional :
    (take_task_update db_assigned 5 1).2 = 1 ∧
    (take_task_update db_assigned 5 1).1.tasks.map Task.assigned_to_id = [some 5] ∧
    (conditional_claim_spec db_assigned 5 1).2 = 0 ∧
    (conditional_claim_spec db_assigned 5 1).1 = db_assigned := by decide

/-- After the take-task UPDATE, the first row matching the id is the
updated row. -/
theorem find_claimed (uid tid : Nat) :
    ∀ (l : List Task) (t : Task), l.find? (fun x => x.id == tid) = some t →
      (l.map fun x => if x.id == tid then claim_row uid x else x).find?
          (fun x => x.id == tid) = some (claim_row uid t)
  | [], t, h => by simp [List.find?] at h
  | x :: xs, t, h => by
    rw [List.find?_cons] at h
    rw [List.map_cons, List.find?_cons]
    cases hx : x.id == tid with
    | true =>
      rw [hx] at h
      dsimp only at h
      injection h with h
      subst h
      rw [if_pos rfl]
      have hpx : ((claim_row uid x).id == tid) = true := by
        simpa [claim_row] using hx
      rw [hpx]
    | false =>
      rw [hx] at h
      dsimp only at h
      rw [if_neg (show ¬(false = true) by simp)]
      rw [hx]
      dsimp only
      exact find_claimed uid tid xs t h

/-- C1 (amended): a claim is a read, an application-level null-assignee
check, and an unconditional update, with no suspension point in between;
two claim attempts on the single event loop therefore serialize: the first
succeeds, the second is answered with the already-assigned conflict alert,
and the task's assignee is the winner. -/
theorem take_task_serialized_claim (db : DB) (u1 u2 : User) (tid : Nat) (t : Task)
    (h1 : (u1.role == "admin") = false) (h2 : (u2.role == "admin") = false)
    (hfind : db.tasks.find? (fun x => x.id == tid) = some t)
    (hfree : t.assigned_to_id = none) :
    (callback_take_task db u1 tid).2 = TakeResult.success ∧
    (callback_take_task (callback_take_task db u1 tid).1 u2 tid).2 =
      TakeResult.alreadyAssigned ∧
    ((callback_take_task (callback_take_task db u1 tid).1 u2 tid).1.tasks.find?
        (fun x => x.id == tid)).map Task.assigned_to_id = some (some u1.id) := by
  have hkey := find_claimed u1.id tid db.tasks t hfind
  have hrun1 : callback_take_task db u1 tid =
      ((take_task_update db u1.id tid).1, TakeResult.success) := by
    simp [callback_take_task, h1, hfind, hfree]
  have hfind2 : (take_task_update db u1.id tid).1.tasks.find? (fun x => x.id == tid) =
      some (claim_row u1.id t) := by
    unfold take_task_update
    simpa using hkey
  have hrun2 : callback_take_task (take_task_update db u1.id tid).1 u2 tid =
      ((take_task_update db u1.id tid).1, TakeResult.alreadyAssigned) := by
    simp [callback_take_task, h2, hfind2, claim_row]
  refine ⟨?_, ?_, ?_⟩
  · rw [hrun1]
  · rw [hrun1]
    dsimp only
    rw [hrun2]
  · rw [hrun1]
    dsimp only
    rw [hrun2]
    dsimp only
    rw [hfind2]
    simp [claim_row]

/-- Witness for C1's amended theorem: two employees race for the free
task 2; the first wins, the second gets the conflict alert, the assignee is
the winner's id. -/
theorem take_task_serialized_claim_witness :
    (callback_take_task db_free employee1 2).2 = TakeResult.success ∧
    (callback_take_task (callback_take_task db_free employee1 2).1 employee2 2).2 =
      TakeResult.alreadyAssigned ∧
    ((callback_take_task (callback_take_task db_free employee1 2).1 employee2 2).1.tasks.find?
        (fun x => x.id == 2)).map Task.assigned_to_id = some (some 5) :=
  take_task_serialized_claim db_free employee1 employee2 2 free_task
    (by decide) (by decide) (by decide) (by decide)

/-! ## C2: admin reopen -/

/-- C2: admin reopen of a completed task with comment `"redo the header"`
sets the status to in_progress, clears `completion_comment` and the legacy
photo column, and notifies the previous assignee with the comment — but it
appends no `task_history` row (no `"reopened"` entry, although the schema
and the history formatter declare that change type) and leaves the
`task_photos` attachment rows in place; reopen of a task in any other
status, or by a non-admin, is rejected at the entry point. -/
theorem reopen_skips_history_and_attachments :
    callback_reopen_task db_completed admin1 1 = ReopenStartResult.promptForComment ∧
    (process_reopen_comment db_completed admin1 1 "redo the header").1.tasks =
      [⟨1, "in_progress", "medium", some 1000, some 2, some 1, none, none⟩] ∧
    (process_reopen_comment db_completed admin1 1 "redo the header").2 =
      [⟨"tgB", "redo the header"⟩] ∧
    (process_reopen_comment db_completed admin1 1 "redo the header").1.task_history = [] ∧
    (process_reopen_comment db_completed admin1 1 "redo the header").1.task_photos =
      [(1, "x")] ∧
    callback_reopen_task db_inprog admin1 3 = ReopenStartResult.notCompleted ∧
    callback_reopen_task db_completed reopen_assignee 1 = ReopenStartResult.deniedNotAdmin := by
  decide

/-! ## C3: dedup log discipline -/

/-- C3 counterexample: with every delivery failing, the overdue dispatcher
still writes the `(task, "overdue")` dedup row at its final line — the log
is written for a pair whose delivery failed, and the pair will never be
retried. -/
theorem overdue_row_written_on_failed_delivery :
    send_overdue_notification env_deliver_fail default_settings_of 540 db_overdue
        (overdue_task, employee1) =
      Except.ok ({ db_overdue with task_notifications := [(4, "overdue")] }, []) := by
  decide

/-- Rows of the insert-if-absent write: anything in the result was already
in the log or is exactly the inserted pair. -/
theorem mem_mark_notification (env : Env) (db : DB) (tid : Nat) (k : String)
    (e : Nat × String)
    (he : e ∈ (mark_notification_sent env db tid k).task_notifications) :
    e ∈ db.task_notifications ∨ e = (tid, k) := by
  unfold mark_notification_sent at he
  by_cases h1 : env.mark_fails tid k = true
  · simp only [h1, if_true] at he
    exact Or.inl he
  · simp only [h1, if_false] at he
    by_cases h2 : (tid, k) ∈ db.task_notifications
    · rw [if_pos h2] at he
      exact Or.inl he
    · rw [if_neg h2] at he
      rcases List.mem_append.mp he with h | h
      · exact Or.inl h
      · exact Or.inr (List.mem_singleton.mp h)

/-- A non-raising insert-if-absent write leaves the pair present. -/
theorem mark_adds_row (env : Env) (db : DB) (tid : Nat) (k : String)
    (hm : env.mark_fails tid k = false) :
    (tid, k) ∈ (mark_notification_sent env db tid k).task_notifications := by
  unfold mark_notification_sent
  rw [hm]
  simp only [Bool.false_eq_true, if_false]
  by_cases h2 : (tid, k) ∈ db.task_notifications
  · rw [if_pos h2]
    exact h2
  · rw [if_neg h2]
    simp

/-- The 8h sender adds a log row only when the delivery went through. -/
theorem send_24h_rows (env : Env) (sOf : Nat → NotificationSettings) (now_tod : Nat)
    (db : DB) (tu : Task × User) (db' : DB) (ms : List Msg)
    (hok : send_24h_reminder env sOf now_tod db tu = .ok (db', ms)) :
    ∀ e ∈ db'.task_notifications, e ∈ db.task_notifications ∨
      (e = (tu.1.id, "24h") ∧ env.deliver_ok tu.2.telegram_id = true) := by
  intro e he
  unfold send_24h_reminder check_notification_sent at hok
  by_cases hcf : env.check_fails tu.1.id "24h" = true
  · simp [hcf] at hok
  · simp only [hcf, if_false] at hok
    by_cases hm : (tu.1.id, "24h") ∈ db.task_notifications
    · simp [hm] at hok
      obtain ⟨rfl, rfl⟩ := hok
      exact Or.inl he
    · cases hs : should_send_notification (sOf tu.2.id) now_tod "24h" with
      | false =>
        simp [hm, hs] at hok
        obtain ⟨rfl, rfl⟩ := hok
        exact Or.inl he
      | true =>
        cases hd : env.deliver_ok tu.2.telegram_id with
        | false =>
          simp [hm, hs, hd] at hok
          obtain ⟨rfl, rfl⟩ := hok
          exact Or.inl he
        | true =>
          simp [hm, hs, hd] at hok
          obtain ⟨rfl, rfl⟩ := hok
          rcases mem_mark_notification env db tu.1.id "24h" e he with h | h
          · exact Or.inl h
          · exact Or.inr ⟨h, rfl⟩

/-- The 4h sender adds a log row only when the delivery went through. -/
theorem send_3h_rows (env : Env) (sOf : Nat → NotificationSettings) (now_tod : Nat)
    (db : DB) (tu : Task × User) (db' : DB) (ms : List Msg)
    (hok : send_3h_reminder env sOf now_tod db tu = .ok (db', ms)) :
    ∀ e ∈ db'.task_notifications, e ∈ db.task_notifications ∨
      (e = (tu.1.id, "3h") ∧ env.deliver_ok tu.2.telegram_id = true) := by
  intro e he
  unfold send_3h_reminder check_notification_sent at hok
  by_cases hcf : env.check_fails tu.1.id "3h" = true
  · simp [hcf] at hok
  · simp only [hcf, if_false] at hok
    by_cases hm : (tu.1.id, "3h") ∈ db.task_notifications
    · simp [hm] at hok
      obtain ⟨rfl, rfl⟩ := hok
      exact Or.inl he
    · cases hs : should_send_notification (sOf tu.2.id) now_tod "3h" with
      | false =>
        simp [hm, hs] at hok
        obtain ⟨rfl, rfl⟩ := hok
        exact Or.inl he
      | true =>
        cases hd : env.deliver_ok tu.2.telegram_id with
        | false =>
          simp [hm, hs, hd] at hok
          obtain ⟨rfl, rfl⟩ := hok
          exact Or.inl he
        | true =>
          simp [hm, hs, hd] at hok
          obtain ⟨rfl, rfl⟩ := hok
          rcases mem_mark_notification env db tu.1.id "3h" e he with h | h
          · exact Or.inl h
          · exact Or.inr ⟨h, rfl⟩

/-- An existing dedup row makes the 8h sender skip without touching
anything. -/
theorem send_24h_skips_when_logged (env : Env) (sOf : Nat → NotificationSettings)
    (now_tod : Nat) (db : DB) (tu : Task × User)
    (hcf : env.check_fails tu.1.id "24h" = false)
    (hm : (tu.1.id, "24h") ∈ db.task_notifications) :
    send_24h_reminder env sOf now_tod db tu = .ok (db, []) := by
  unfold send_24h_reminder check_notification_sent
  rw [hcf]
  simp [hm]

/-- An existing dedup row makes the 4h sender skip without touching
anything. -/
theorem send_3h_skips_when_logged (env : Env) (sOf : Nat → NotificationSettings)
    (now_tod : Nat) (db : DB) (tu : Task × User)
    (hcf : env.check_fails tu.1.id "3h" = false)
    (hm : (tu.1.id, "3h") ∈ db.task_notifications) :
    send_3h_reminder env sOf now_tod db tu = .ok (db, []) := by
  unfold send_3h_reminder check_notification_sent
  rw [hcf]
  simp [hm]

/-- An existing dedup row makes the overdue dispatcher skip without
touching anything. -/
theorem send_overdue_skips_when_logged (env : Env) (sOf : Nat → NotificationSettings)
    (now_tod : Nat) (db : DB) (tu : Task × User)
    (hcf : env.check_fails tu.1.id "overdue" = false)
    (hm : (tu.1.id, "overdue") ∈ db.task_notifications) :
    send_overdue_notification env sOf now_tod db tu = .ok (db, []) := by
  unfold send_overdue_notification check_notification_sent
  rw [hcf]
  simp [hm]

/-- The insert-if-absent write is idempotent. -/
theorem mark_idempotent (env : Env) (db : DB) (tid : Nat) (k : String) :
    mark_notification_sent env (mark_notification_sent env db tid k) tid k =
      mark_notification_sent env db tid k := by
  unfold mark_notification_sent
  by_cases h1 : env.mark_fails tid k = true
  · simp [h1]
  · by_cases h2 : (tid, k) ∈ db.task_notifications
    · simp [h1, h2]
    · simp [h1, h2]

/-- With the assignee's preferences permitting and a functioning log write,
the overdue dispatcher records its dedup row whatever the delivery
outcomes were. -/
theorem send_overdue_always_marks (env : Env) (sOf : Nat → NotificationSettings)
    (now_tod : Nat) (db : DB) (tu : Task × User) (db' : DB) (ms : List Msg)
    (hcf : env.check_fails tu.1.id "overdue" = false)
    (hmf : env.mark_fails tu.1.id "overdue" = false)
    (hs : should_send_notification (sOf tu.2.id) now_tod "overdue" = true)
    (hok : send_overdue_notification env sOf now_tod db tu = .ok (db', ms)) :
    (tu.1.id, "overdue") ∈ db'.task_notifications := by
  unfold send_overdue_notification check_notification_sent at hok
  rw [hcf] at hok
  by_cases hm : (tu.1.id, "overdue") ∈ db.task_notifications
  · simp [hm] at hok
    obtain ⟨rfl, rfl⟩ := hok
    exact hm
  · simp [hm, hs] at hok
    obtain ⟨rfl, rfl⟩ := hok
    exact mark_adds_row env db tu.1.id "overdue" hmf

/-- C3 (amended): for the three deduped kinds the sender checks the log
first and an existing row suppresses the send; the log write is an
idempotent insert-if-absent; for the 8h and 4h reminders a new row appears
only after a successful delivery; the overdue dispatcher, however, records
its row after the dispatch attempt regardless of the delivery outcome. -/
theorem dedup_log_discipline (env : Env) (sOf : Nat → NotificationSettings)
    (now_tod : Nat) (db : DB) (tu : Task × User) :
    (∀ db' ms, send_24h_reminder env sOf now_tod db tu = .ok (db', ms) →
      ∀ e ∈ db'.task_notifications, e ∈ db.task_notifications ∨
        (e = (tu.1.id, "24h") ∧ env.deliver_ok tu.2.telegram_id = true)) ∧
    (∀ db' ms, send_3h_reminder env sOf now_tod db tu = .ok (db', ms) →
      ∀ e ∈ db'.task_notifications, e ∈ db.task_notifications ∨
        (e = (tu.1.id, "3h") ∧ env.deliver_ok tu.2.telegram_id = true)) ∧
    (env.check_fails tu.1.id "24h" = false →
      (tu.1.id, "24h") ∈ db.task_notifications →
      send_24h_reminder env sOf now_tod db tu = .ok (db, [])) ∧
    (env.check_fails tu.1.id "3h" = false →
      (tu.1.id, "3h") ∈ db.task_notifications →
      send_3h_reminder env sOf now_tod db tu = .ok (db, [])) ∧
    (env.check_fails tu.1.id "overdue" = false →
      (tu.1.id, "overdue") ∈ db.task_notifications →
      send_overdue_notification env sOf now_tod db tu = .ok (db, [])) ∧
    (mark_notification_sent env (mark_notification_sent env db tu.1.id "24h") tu.1.id "24h" =
      mark_notification_sent env db tu.1.id "24h") ∧
    (∀ db' ms, env.check_fails tu.1.id "overdue" = false →
      env.mark_fails tu.1.id "overdue" = false →
      should_send_notification (sOf tu.2.id) now_tod "overdue" = true →
      send_overdue_notification env sOf now_tod db tu = .ok (db', ms) →
      (tu.1.id, "overdue") ∈ db'.task_notifications) :=
  ⟨fun db' ms hok => send_24h_rows env sOf now_tod db tu db' ms hok,
   fun db' ms hok => send_3h_rows env sOf now_tod db tu db' ms hok,
   fun hcf hm => send_24h_skips_when_logged env sOf now_tod db tu hcf hm,
   fun hcf hm => send_3h_skips_when_logged env sOf now_tod db tu hcf hm,
   fun hcf hm => send_overdue_skips_when_logged env sOf now_tod db tu hcf hm,
   mark_idempotent env db tu.1.id "24h",
   fun db' ms hcf hmf hs hok =>
     send_overdue_always_marks env sOf now_tod db tu db' ms hcf hmf hs hok⟩

/-- Witness for C3's amended theorem: a logged 8h pair is skipped at a
concrete store. -/
theorem dedup_log_discipline_witness :
    envOk.check_fails 11 "24h" = false ∧
    (11, "24h") ∈ db_logged.task_notifications ∧
    send_24h_reminder envOk default_settings_of 540 db_logged (t8a, employee1) =
      .ok (db_logged, []) :=
  ⟨rfl, by decide,
   (dedup_log_discipline envOk default_settings_of 540 db_logged (t8a, employee1)).2.2.1
     rfl (by decide)⟩

/-! ## C4: debounced prompt -/

/-- The two clock draws of one registration, written out: the caller's
`task_timestamp` is `s.counter`, the coroutine's own later draw is
`s.counter + 1`. -/
theorem register_photo_menu_eq (s : AggState) :
    register_photo_menu s =
      { counter := s.counter + 2,
        stored := some (s.counter, s.counter),
        live := (match s.stored with
          | some (aid, _) => s.live.map fun a =>
              if a.aid == aid then { a with cancelled := true } else a
          | none => s.live) ++ [⟨s.counter, s.counter + 1, false⟩],
        prompts := s.prompts } := by
  unfold register_photo_menu draw_time
  cases s.stored <;> rfl

/-- The empty aggregator satisfies the run invariant. -/
theorem agg_inv_init : agg_inv AggState.init := by
  refine ⟨rfl, ?_, ?_, rfl⟩ <;> simp [AggState.init]

/-- Registering a photo event preserves the invariant: the registration
draw is even, the coroutine's own later draw is odd. -/
theorem agg_inv_register (s : AggState) (h : agg_inv s) :
    agg_inv (register_photo_menu s) := by
  obtain ⟨hc, hl, hs, hp⟩ := h
  rw [register_photo_menu_eq]
  refine ⟨by dsimp only; omega, ?_, ?_, hp⟩
  · intro a ha
    rw [List.mem_append] at ha
    rcases ha with ha | ha
    · cases hst : s.stored with
      | none =>
        rw [hst] at ha
        exact hl a ha
      | some p =>
        rw [hst] at ha
        obtain ⟨b, hb, rfl⟩ := List.mem_map.mp ha
        by_cases hid : (b.aid == p.1) = true
        · simpa [hid] using hl b hb
        · simpa [hid] using hl b hb
    · rw [List.mem_singleton] at ha
      subst ha
      dsimp only
      omega
  · intro k r hkr
    simp only [Option.some.injEq, Prod.mk.injEq] at hkr
    omega

/-- Under the invariant, a firing delayed action is a no-op: the stored
registration timestamp (even) never equals the action's own token (odd). -/
theorem fire_is_noop (s : AggState) (a : DelayedMenuAction) (n : Nat)
    (h : agg_inv s) (ha : a.act_token % 2 = 1) :
    show_task_photo_menu_after_delay s a n = s := by
  obtain ⟨hc, hl, hs, hp⟩ := h
  unfold show_task_photo_menu_after_delay
  cases hst : s.stored with
  | none => cases a.cancelled <;> simp [hst]
  | some p =>
    have hr := hs p.1 p.2 (by rw [hst])
    have hne : (p.2 == a.act_token) = false := by
      have hx : p.2 ≠ a.act_token := by omega
      simpa using hx
    cases a.cancelled <;> simp [hst, hne]

/-- Folding the wake-ups over any list of odd-token actions changes
nothing. -/
theorem fold_fire_noop (n : Nat) :
    ∀ (l : List DelayedMenuAction) (s : AggState), agg_inv s →
      (∀ a ∈ l, a.act_token % 2 = 1) →
      l.foldl (fun st a => show_task_photo_menu_after_delay st a n) s = s
  | [], _, _, _ => rfl
  | a :: l, s, hs, hl => by
    rw [List.foldl_cons, fire_is_noop s a n hs (hl a (by simp))]
    exact fold_fire_noop n l s hs fun b hb => hl b (by simp [hb])

/-- The invariant holds after any sequence of registrations. -/
theorem burst_inv : ∀ (l : List Nat) (s : AggState), agg_inv s →
    agg_inv (l.foldl (fun st _ => register_photo_menu st) s)
  | [], _, h => h
  | _ :: l, s, h => burst_inv l _ (agg_inv_register s h)

/-- C4: in the task-creation photo flow the stale-token check compares the
timestamp stored at registration with a timestamp the delayed coroutine
drew for itself later, so the two never agree: every delayed prompt action
is a no-op when it fires, and a burst of `n` attachment events produces
zero prompts — the claim expects exactly one, reporting the burst count. -/
theorem photo_burst_never_prompts (n : Nat) : (run_photo_burst n).prompts = [] := by
  unfold run_photo_burst
  have hinv := burst_inv (List.range n) AggState.init agg_inv_init
  rw [fold_fire_noop n _ _ hinv hinv.2.1]
  exact hinv.2.2.2

/-! ## C5: immediate attachment persistence -/

/-- C5 counterexample: a completion-flow attachment event leaves the store
untouched — the photo reference exists only in the in-memory FSM list, so a
restart before the flow finishes loses it. -/
theorem completion_photo_only_in_memory :
    (process_completion_photo db_inprog [] "p1").1 = db_inprog ∧
    (process_completion_photo db_inprog [] "p1").1.task_photos = [] ∧
    (process_completion_photo db_inprog [] "p1").2 = ["p1"] := by decide

/-- C5 (amended): in the task-creation flow every attachment event is
persisted to `task_photos` immediately, before and independently of the
debounce registration; in the completion flow the event only appends to the
in-memory FSM list and the accumulated photos reach the store only when the
flow finishes. -/
theorem attachment_persistence_split (db : DB) (s s' : AggState)
    (task_id : Nat) (photo : String) (t : Task)
    (hfind : db.tasks.find? (fun x => x.id == task_id) = some t) :
    add_photo_to_task db s task_id photo =
      some ({ db with task_photos := db.task_photos ++ [(task_id, photo)] },
            register_photo_menu s) ∧
    (add_photo_to_task db s task_id photo).map Prod.fst =
      (add_photo_to_task db s' task_id photo).map Prod.fst ∧
    (∀ acc p, (process_completion_photo db acc p).1 = db) ∧
    (∀ new_status comment acc,
      (callback_photo_no_save db task_id new_status comment acc).task_photos =
        db.task_photos ++ acc.map fun p => (task_id, p)) := by
  refine ⟨?_, ?_, ?_, ?_⟩ <;>
    simp [add_photo_to_task, hfind, process_completion_photo, callback_photo_no_save]

/-- Witness for C5's amended theorem at a concrete input: one creation-flow
photo lands in `task_photos` at once. -/
theorem attachment_persistence_split_witness :
    add_photo_to_task db_inprog AggState.init 3 "p1" =
      some ({ db_inprog with task_photos := db_inprog.task_photos ++ [(3, "p1")] },
            register_photo_menu AggState.init) :=
  (attachment_persistence_split db_inprog AggState.init AggState.init 3 "p1"
    inprog_task (by decide)).1

/-- The 1h sender: always `ok`, never touches the store, sends exactly when
the preference gate and the gateway permit. -/
theorem send_1h_eq (env : Env) (sOf : Nat → NotificationSettings)
    (now_tod : Nat) (db : DB) (tu : Task × User) :
    send_1h_reminder env sOf now_tod db tu =
      .ok (db, if should_send_notification (sOf tu.2.id) now_tod "1h" &&
            env.deliver_ok tu.2.telegram_id then [⟨tu.2.telegram_id, "1h"⟩] else []) := by
  unfold send_1h_reminder
  cases hs : should_send_notification (sOf tu.2.id) now_tod "1h" with
  | false => simp
  | true => cases hd : env.deliver_ok tu.2.telegram_id with
    | false => simp
    | true => simp

/-- With a functioning log read, the 8h sender cannot raise. -/
theorem send_24h_never_errors (env : Env) (sOf : Nat → NotificationSettings)
    (now_tod : Nat) (db : DB) (tu : Task × User)
    (h : env.check_fails tu.1.id "24h" = false) :
    ∃ r, send_24h_reminder env sOf now_tod db tu = .ok r := by
  unfold send_24h_reminder check_notification_sent
  rw [h]
  simp only [Bool.false_eq_true, if_false]
  split
  · exact ⟨_, rfl⟩
  · split
    · exact ⟨_, rfl⟩
    · split
      · exact ⟨_, rfl⟩
      · exact ⟨_, rfl⟩

/-- With a functioning log read, the 4h sender cannot raise. -/
theorem send_3h_never_errors (env : Env) (sOf : Nat → NotificationSettings)
    (now_tod : Nat) (db : DB) (tu : Task × User)
    (h : env.check_fails tu.1.id "3h" = false) :
    ∃ r, send_3h_reminder env sOf now_tod db tu = .ok r := by
  unfold send_3h_reminder check_notification_sent
  rw [h]
  simp only [Bool.false_eq_true, if_false]
  split
  · exact ⟨_, rfl⟩
  · split
    · exact ⟨_, rfl⟩
    · split
      · exact ⟨_, rfl⟩
      · exact ⟨_, rfl⟩

/-- With a functioning log read, the overdue dispatcher cannot raise. -/
theorem send_overdue_never_errors (env : Env) (sOf : Nat → NotificationSettings)
    (now_tod : Nat) (db : DB) (tu : Task × User)
    (h : env.check_fails tu.1.id "overdue" = false) :
    ∃ r, send_overdue_notification env sOf now_tod db tu = .ok r := by
  unfold send_overdue_notification check_notification_sent
  rw [h]
  simp only [Bool.false_eq_true, if_false]
  split
  · exact ⟨_, rfl⟩
  · split
    · exact ⟨_, rfl⟩
    · exact ⟨_, rfl⟩

/-- A send loop whose body never raises runs to the end of its list. -/
theorem run_sends_all_ok (f : DB → Task × User → Except Unit (DB × List Msg))
    (hf : ∀ db tu, ∃ r, f db tu = .ok r) :
    ∀ (l : List (Task × User)) (db : DB), (run_sends f l db).2.2 = true
  | [], _ => rfl
  | tu :: rest, db => by
    obtain ⟨r, hr⟩ := hf db tu
    unfold run_sends
    rw [hr]
    dsimp only
    exact run_sends_all_ok f hf rest r.1

/-- The 1h loop never raises and leaves the store untouched. -/
theorem run_sends_1h_state (env : Env) (sOf : Nat → NotificationSettings)
    (now_tod : Nat) :
    ∀ (l : List (Task × User)) (db : DB),
      (run_sends (send_1h_reminder env sOf now_tod) l db).1 = db ∧
      (run_sends (send_1h_reminder env sOf now_tod) l db).2.2 = true
  | [], _ => ⟨rfl, rfl⟩
  | tu :: rest, db => by
    unfold run_sends
    rw [send_1h_eq env sOf now_tod db tu]
    dsimp only
    exact run_sends_1h_state env sOf now_tod rest db

/-- With no persistence-read failures, the scan never aborts: it reaches
and finishes the overdue stage whatever the delivery outcomes are. -/
theorem scan_completes (env : Env) (sOf : Nat → NotificationSettings)
    (now : ℚ) (now_tod : Nat) (db : DB)
    (hcf : ∀ tid k, env.check_fails tid k = false) :
    (check_and_send_notifications env sOf now now_tod db).2.2 = true := by
  have ok24 : ∀ (l : List (Task × User)) (dbx : DB),
      (run_sends (send_24h_reminder env sOf now_tod) l dbx).2.2 = true :=
    run_sends_all_ok _ fun dbx tu =>
      send_24h_never_errors env sOf now_tod dbx tu (hcf _ _)
  have ok3 : ∀ (l : List (Task × User)) (dbx : DB),
      (run_sends (send_3h_reminder env sOf now_tod) l dbx).2.2 = true :=
    run_sends_all_ok _ fun dbx tu =>
      send_3h_never_errors env sOf now_tod dbx tu (hcf _ _)
  have ok1 : ∀ (l : List (Task × User)) (dbx : DB),
      (run_sends (send_1h_reminder env sOf now_tod) l dbx).2.2 = true :=
    fun l dbx => (run_sends_1h_state env sOf now_tod l dbx).2
  have okod : ∀ (l : List (Task × User)) (dbx : DB),
      (run_sends (send_overdue_notification env sOf now_tod) l dbx).2.2 = true :=
    run_sends_all_ok _ fun dbx tu =>
      send_overdue_never_errors env sOf now_tod dbx tu (hcf _ _)
  unfold check_and_send_notifications
  dsimp only
  rw [ok24, if_neg (show ¬(true = false) by simp)]
  rw [ok3, if_neg (show ¬(true = false) by simp)]
  rw [ok1, if_neg (show ¬(true = false) by simp)]
  dsimp only
  rw [okod]

/-! ## C6: failure isolation in the scan -/

/-- The 8h window holds eight hours before the due instant. -/
theorem in_24h_window_28800 : in_24h_window 28800 0 = true := by
  rw [in_24h_window, hours_until]
  norm_num

/-- Eight hours out is not in the 4h window. -/
theorem in_3h_window_28800 : in_3h_window 28800 0 = false := by
  rw [in_3h_window, hours_until]
  norm_num

/-- Eight hours out is not in the 1h window. -/
theorem in_1h_window_28800 : in_1h_window 28800 0 = false := by
  rw [in_1h_window, minutes_until]
  norm_num

/-- Eight hours out is not overdue. -/
theorem overdue_window_28800 : overdue_window 28800 0 = false := by
  rw [overdue_window]
  norm_num

/-- The 8h getter on the two-task store selects both joined rows. -/
theorem get24_db_two :
    get_tasks_for_24h_reminder db_two 0 = [(t8a, employee1), (t8b, employee2)] := by
  have hsr : scan_rows db_two = [(t8a, employee1), (t8b, employee2)] := by decide
  unfold get_tasks_for_24h_reminder
  rw [hsr]
  simp [List.filter, t8a, t8b, in_24h_window_28800]

/-- No other getter selects anything on the two-task store after the 8h
loop. -/
theorem other_getters_db_two_after :
    get_tasks_for_3h_reminder db_two_after 0 = [] ∧
    get_tasks_for_1h_reminder db_two_after 0 = [] ∧
    get_overdue_tasks db_two_after 0 = [] := by
  have hsr : scan_rows db_two_after = [(t8a, employee1), (t8b, employee2)] := by decide
  refine ⟨?_, ?_, ?_⟩
  · unfold get_tasks_for_3h_reminder
    rw [hsr]
    simp [List.filter, t8a, t8b, in_3h_window_28800]
  · unfold get_tasks_for_1h_reminder
    rw [hsr]
    simp [List.filter, t8a, t8b, in_1h_window_28800]
  · unfold get_overdue_tasks
    rw [hsr]
    simp [List.filter, t8a, t8b, overdue_window_28800]

/-- C6 counterexample: a persistence failure reading the log for task 11
propagates to the single scan-level handler — the scan aborts with no
message sent, although task 12 also sits in the 8h window and the claim
requires it to still be evaluated that tick. -/
theorem check_failure_aborts_whole_scan :
    check_and_send_notifications env_break_check default_settings_of 0 540 db_two =
      (db_two, [], false) ∧
    (t8b, employee2) ∈ get_tasks_for_24h_reminder db_two 0 := by
  constructor
  · unfold check_and_send_notifications
    rw [get24_db_two]
    decide
  · rw [get24_db_two]
    simp

/-- C6 (amended): a delivery failure is caught inside the send helper and
the scan continues — with no persistence-read failures the scan always
runs to completion, and a failed delivery to one assignee leaves the other
tasks of the same tick served; a persistence failure reading the
notification log, however, propagates to the single scan-level handler and
abandons the remainder of the tick. -/
theorem scan_isolates_delivery_failures (env : Env) (sOf : Nat → NotificationSettings)
    (now : ℚ) (now_tod : Nat) (db : DB)
    (hcf : ∀ tid k, env.check_fails tid k = false) :
    (check_and_send_notifications env sOf now now_tod db).2.2 = true ∧
    (check_and_send_notifications env_fail_first_chat default_settings_of 0 540 db_two).2.1 =
      [⟨"tg6", "24h"⟩] := by
  constructor
  · exact scan_completes env sOf now now_tod db hcf
  · obtain ⟨h3, h1, hod⟩ := other_getters_db_two_after
    have hrun : run_sends (send_24h_reminder env_fail_first_chat default_settings_of 540)
        [(t8a, employee1), (t8b, employee2)] db_two =
        (db_two_after, [⟨"tg6", "24h"⟩], true) := by decide
    have e3 : run_sends (send_3h_reminder env_fail_first_chat default_settings_of 540)
        [] db_two_after = (db_two_after, [], true) := rfl
    have e1 : run_sends (send_1h_reminder env_fail_first_chat default_settings_of 540)
        [] db_two_after = (db_two_after, [], true) := rfl
    have eod : run_sends (send_overdue_notification env_fail_first_chat default_settings_of 540)
        [] db_two_after = (db_two_after, [], true) := rfl
    unfold check_and_send_notifications
    dsimp only
    rw [get24_db_two, hrun]
    dsimp only
    rw [h3, e3]
    dsimp only
    rw [h1, e1]
    dsimp only
    rw [hod, eod]
    decide

/-- Witness for C6's amended theorem at the all-successful environment. -/
theorem scan_isolates_delivery_failures_witness :
    (check_and_send_notifications envOk default_settings_of 0 540 db_two).2.2 = true ∧
    (check_and_send_notifications env_fail_first_chat default_settings_of 0 540 db_two).2.1 =
      [⟨"tg6", "24h"⟩] :=
  scan_isolates_delivery_failures envOk default_settings_of 0 540 db_two
    (fun _ _ => rfl)

/-! ## C7: window classification -/

/-- The 8h Python condition is the seconds interval `[25200, 32400]`. -/
theorem in_24h_window_iff (d now : ℚ) :
    in_24h_window d now = true ↔ 25200 ≤ d - now ∧ d - now ≤ 32400 := by
  rw [in_24h_window, hours_until, Bool.and_eq_true, decide_eq_true_eq, decide_eq_true_eq,
    le_div_iff₀ (by norm_num : (0:ℚ) < 3600), div_le_iff₀ (by norm_num : (0:ℚ) < 3600)]
  norm_num

/-- The 4h Python condition is the seconds interval `[12600, 16200]`. -/
theorem in_3h_window_iff (d now : ℚ) :
    in_3h_window d now = true ↔ 12600 ≤ d - now ∧ d - now ≤ 16200 := by
  rw [in_3h_window, hours_until, Bool.and_eq_true, decide_eq_true_eq, decide_eq_true_eq,
    le_div_iff₀ (by norm_num : (0:ℚ) < 3600), div_le_iff₀ (by norm_num : (0:ℚ) < 3600)]
  norm_num

/-- The 1h Python condition is the seconds interval `[60, 3600]`. -/
theorem in_1h_window_iff (d now : ℚ) :
    in_1h_window d now = true ↔ 60 ≤ d - now ∧ d - now ≤ 3600 := by
  rw [in_1h_window, minutes_until, Bool.and_eq_true, decide_eq_true_eq, decide_eq_true_eq,
    le_div_iff₀ (by norm_num : (0:ℚ) < 60), div_le_iff₀ (by norm_num : (0:ℚ) < 60)]
  norm_num

/-- The overdue Python condition (`total_seconds() > 0 and days < 1`) is
the open seconds interval `(0, 86400)` past the due instant. -/
theorem overdue_window_iff (d now : ℚ) :
    overdue_window d now = true ↔ 0 < now - d ∧ now - d < 86400 := by
  rw [overdue_window, Bool.and_eq_true, decide_eq_true_eq, decide_eq_true_eq]
  constructor
  · rintro ⟨h1, h2⟩
    refine ⟨h1, ?_⟩
    rw [Int.floor_lt, div_lt_iff₀ (by norm_num : (0:ℚ) < 86400)] at h2
    push_cast at h2
    linarith
  · rintro ⟨h1, h2⟩
    refine ⟨h1, ?_⟩
    rw [Int.floor_lt, div_lt_iff₀ (by norm_num : (0:ℚ) < 86400)]
    push_cast
    linarith

/-- Membership in the joined active rows. -/
theorem mem_scan_rows (db : DB) (t : Task) (u : User) :
    (t, u) ∈ scan_rows db ↔
      t ∈ db.tasks ∧ (active_status t.status && t.due_date.isSome) = true ∧
      join_assignee db t = some u := by
  unfold scan_rows
  rw [List.mem_filterMap]
  constructor
  · rintro ⟨a, ha, hmap⟩
    rw [List.mem_filter] at ha
    cases hj : join_assignee db a with
    | none => rw [hj] at hmap; exact absurd hmap (by simp)
    | some w =>
      rw [hj] at hmap
      simp at hmap
      obtain ⟨rfl, rfl⟩ := hmap
      exact ⟨ha.1, ha.2, hj⟩
  · rintro ⟨hmem, hcond, hjoin⟩
    exact ⟨t, List.mem_filter.mpr ⟨hmem, hcond⟩, by rw [hjoin]; rfl⟩

/-- The 8h getter filters the joined rows by its window. -/
theorem mem_get24 (db : DB) (now : ℚ) (t : Task) (u : User) (d : ℚ)
    (hdue : t.due_date = some d) :
    (t, u) ∈ get_tasks_for_24h_reminder db now ↔
      (t, u) ∈ scan_rows db ∧ in_24h_window d now = true := by
  unfold get_tasks_for_24h_reminder
  simp [List.mem_filter, hdue]

/-- The 4h getter filters the joined rows by its window. -/
theorem mem_get3 (db : DB) (now : ℚ) (t : Task) (u : User) (d : ℚ)
    (hdue : t.due_date = some d) :
    (t, u) ∈ get_tasks_for_3h_reminder db now ↔
      (t, u) ∈ scan_rows db ∧ in_3h_window d now = true := by
  unfold get_tasks_for_3h_reminder
  simp [List.mem_filter, hdue]

/-- The 1h getter filters the joined rows by its window. -/
theorem mem_get1 (db : DB) (now : ℚ) (t : Task) (u : User) (d : ℚ)
    (hdue : t.due_date = some d) :
    (t, u) ∈ get_tasks_for_1h_reminder db now ↔
      (t, u) ∈ scan_rows db ∧ in_1h_window d now = true := by
  unfold get_tasks_for_1h_reminder
  simp [List.mem_filter, hdue]

/-- The overdue getter filters the joined rows by its window. -/
theorem mem_getod (db : DB) (now : ℚ) (t : Task) (u : User) (d : ℚ)
    (hdue : t.due_date = some d) :
    (t, u) ∈ get_overdue_tasks db now ↔
      (t, u) ∈ scan_rows db ∧ overdue_window d now = true := by
  unfold get_overdue_tasks
  simp [List.mem_filter, hdue]

/-- C7 counterexample: an active pending task with a due date 8 hours out
but no assignee joins no user row, so the scan classifies it into no kind
at all, against the claim's "every active task with a non-null due date". -/
theorem unassigned_task_not_classified :
    get_tasks_for_24h_reminder db_free8 0 = [] ∧
    in_24h_window 28800 0 = true ∧
    active_status "pending" = true ∧
    free8_task ∈ db_free8.tasks ∧
    free8_task.due_date = some 28800 ∧
    free8_task.assigned_to_id = none := by
  refine ⟨?_, ?_, by decide, by decide, by decide, by decide⟩
  · have hsr : scan_rows db_free8 = [] := by decide
    unfold get_tasks_for_24h_reminder
    rw [hsr]
    rfl
  · rw [in_24h_window, hours_until]
    norm_num

/-- C7 (amended): for every active task with a non-null due date AND a
joined assignee, the scan classifies it into the 8h kind exactly when the
remaining seconds are in `[25200, 32400]`, into the 4h kind exactly on
`[12600, 16200]`, into the 1h kind exactly on `[60, 3600]`, and into
overdue exactly when the elapsed seconds past due are in `(0, 86400)`;
the four windows are pairwise disjoint. -/
theorem classification_windows (db : DB) (now : ℚ) (t : Task) (u : User) (d : ℚ)
    (hmem : t ∈ db.tasks) (hact : active_status t.status = true)
    (hdue : t.due_date = some d) (hjoin : join_assignee db t = some u) :
    ((t, u) ∈ get_tasks_for_24h_reminder db now ↔
      25200 ≤ d - now ∧ d - now ≤ 32400) ∧
    ((t, u) ∈ get_tasks_for_3h_reminder db now ↔
      12600 ≤ d - now ∧ d - now ≤ 16200) ∧
    ((t, u) ∈ get_tasks_for_1h_reminder db now ↔
      60 ≤ d - now ∧ d - now ≤ 3600) ∧
    ((t, u) ∈ get_overdue_tasks db now ↔ 0 < now - d ∧ now - d < 86400) ∧
    (∀ e : ℚ, ¬((25200 ≤ e ∧ e ≤ 32400) ∧ (12600 ≤ e ∧ e ≤ 16200)) ∧
      ¬((25200 ≤ e ∧ e ≤ 32400) ∧ (60 ≤ e ∧ e ≤ 3600)) ∧
      ¬((25200 ≤ e ∧ e ≤ 32400) ∧ (0 < -e ∧ -e < 86400)) ∧
      ¬((12600 ≤ e ∧ e ≤ 16200) ∧ (60 ≤ e ∧ e ≤ 3600)) ∧
      ¬((12600 ≤ e ∧ e ≤ 16200) ∧ (0 < -e ∧ -e < 86400)) ∧
      ¬((60 ≤ e ∧ e ≤ 3600) ∧ (0 < -e ∧ -e < 86400))) := by
  have hscan : (t, u) ∈ scan_rows db :=
    (mem_scan_rows db t u).mpr ⟨hmem, by rw [hact, hdue]; rfl, hjoin⟩
  refine ⟨?_, ?_, ?_, ?_, ?_⟩
  · rw [mem_get24 db now t u d hdue, in_24h_window_iff]
    simp [hscan]
  · rw [mem_get3 db now t u d hdue, in_3h_window_iff]
    simp [hscan]
  · rw [mem_get1 db now t u d hdue, in_1h_window_iff]
    simp [hscan]
  · rw [mem_getod db now t u d hdue, overdue_window_iff]
    simp [hscan]
  · intro e
    refine ⟨?_, ?_, ?_, ?_, ?_, ?_⟩ <;> rintro ⟨⟨a1, a2⟩, b1, b2⟩ <;> linarith

/-- Witness for C7's amended theorem: the 8h task of the two-task store is
selected by the 8h getter. -/
theorem classification_windows_witness :
    (t8a, employee1) ∈ get_tasks_for_24h_reminder db_two 0 :=
  ((classification_windows db_two 0 t8a employee1 28800
      (by decide) (by decide) (by decide) (by decide)).1).mpr (by norm_num)

/-! ## C8: the 1h milestone -/

/-- The 8h sender's result store is either the input store or the marked
store. -/
theorem send_24h_result (env : Env) (sOf : Nat → NotificationSettings)
    (now_tod : Nat) (db : DB) (tu : Task × User) (db' : DB) (ms : List Msg)
    (hok : send_24h_reminder env sOf now_tod db tu = .ok (db', ms)) :
    db' = db ∨ db' = mark_notification_sent env db tu.1.id "24h" := by
  unfold send_24h_reminder check_notification_sent at hok
  by_cases hcf : env.check_fails tu.1.id "24h" = true
  · simp [hcf] at hok
  · simp only [hcf, if_false] at hok
    by_cases hm : (tu.1.id, "24h") ∈ db.task_notifications
    · simp [hm] at hok
      obtain ⟨rfl, rfl⟩ := hok
      exact Or.inl rfl
    · cases hs : should_send_notification (sOf tu.2.id) now_tod "24h" with
      | false =>
        simp [hm, hs] at hok
        obtain ⟨rfl, rfl⟩ := hok
        exact Or.inl rfl
      | true =>
        cases hd : env.deliver_ok tu.2.telegram_id with
        | false =>
          simp [hm, hs, hd] at hok
          obtain ⟨rfl, rfl⟩ := hok
          exact Or.inl rfl
        | true =>
          simp [hm, hs, hd] at hok
          obtain ⟨rfl, rfl⟩ := hok
          exact Or.inr rfl

/-- The 4h sender's result store is either the input store or the marked
store. -/
theorem send_3h_result (env : Env) (sOf : Nat → NotificationSettings)
    (now_tod : Nat) (db : DB) (tu : Task × User) (db' : DB) (ms : List Msg)
    (hok : send_3h_reminder env sOf now_tod db tu = .ok (db', ms)) :
    db' = db ∨ db' = mark_notification_sent env db tu.1.id "3h" := by
  unfold send_3h_reminder check_notification_sent at hok
  by_cases hcf : env.check_fails tu.1.id "3h" = true
  · simp [hcf] at hok
  · simp only [hcf, if_false] at hok
    by_cases hm : (tu.1.id, "3h") ∈ db.task_notifications
    · simp [hm] at hok
      obtain ⟨rfl, rfl⟩ := hok
      exact Or.inl rfl
    · cases hs : should_send_notification (sOf tu.2.id) now_tod "3h" with
      | false =>
        simp [hm, hs] at hok
        obtain ⟨rfl, rfl⟩ := hok
        exact Or.inl rfl
      | true =>
        cases hd : env.deliver_ok tu.2.telegram_id with
        | false =>
          simp [hm, hs, hd] at hok
          obtain ⟨rfl, rfl⟩ := hok
          exact Or.inl rfl
        | true =>
          simp [hm, hs, hd] at hok
          obtain ⟨rfl, rfl⟩ := hok
          exact Or.inr rfl

/-- The overdue dispatcher's result store is either the input store or the
marked store. -/
theorem send_overdue_result (env : Env) (sOf : Nat → NotificationSettings)
    (now_tod : Nat) (db : DB) (tu : Task × User) (db' : DB) (ms : List Msg)
    (hok : send_overdue_notification env sOf now_tod db tu = .ok (db', ms)) :
    db' = db ∨ db' = mark_notification_sent env db tu.1.id "overdue" := by
  unfold send_overdue_notification check_notification_sent at hok
  by_cases hcf : env.check_fails tu.1.id "overdue" = true
  · simp [hcf] at hok
  · simp only [hcf, if_false] at hok
    by_cases hm : (tu.1.id, "overdue") ∈ db.task_notifications
    · simp [hm] at hok
      obtain ⟨rfl, rfl⟩ := hok
      exact Or.inl rfl
    · cases hs : should_send_notification (sOf tu.2.id) now_tod "overdue" with
      | false =>
        simp [hm, hs] at hok
        obtain ⟨rfl, rfl⟩ := hok
        exact Or.inl rfl
      | true =>
        simp [hm, hs] at hok
        obtain ⟨rfl, rfl⟩ := hok
        exact Or.inr rfl

/-- The log write never touches the task or user tables. -/
theorem mark_tasks_users (env : Env) (db : DB) (tid : Nat) (k : String) :
    (mark_notification_sent env db tid k).tasks = db.tasks ∧
    (mark_notification_sent env db tid k).users = db.users := by
  unfold mark_notification_sent
  constructor
  · split
    · rfl
    · split <;> rfl
  · split
    · rfl
    · split <;> rfl

/-- The 8h sender never touches the task or user tables. -/
theorem send_24h_tasks_users (env : Env) (sOf : Nat → NotificationSettings)
    (now_tod : Nat) :
    ∀ (db : DB) (tu : Task × User) (db' : DB) (ms : List Msg),
      send_24h_reminder env sOf now_tod db tu = .ok (db', ms) →
      db'.tasks = db.tasks ∧ db'.users = db.users := by
  intro db tu db' ms hok
  rcases send_24h_result env sOf now_tod db tu db' ms hok with rfl | rfl
  · exact ⟨rfl, rfl⟩
  · exact mark_tasks_users env db tu.1.id "24h"

/-- The 4h sender never touches the task or user tables. -/
theorem send_3h_tasks_users (env : Env) (sOf : Nat → NotificationSettings)
    (now_tod : Nat) :
    ∀ (db : DB) (tu : Task × User) (db' : DB) (ms : List Msg),
      send_3h_reminder env sOf now_tod db tu = .ok (db', ms) →
      db'.tasks = db.tasks ∧ db'.users = db.users := by
  intro db tu db' ms hok
  rcases send_3h_result env sOf now_tod db tu db' ms hok with rfl | rfl
  · exact ⟨rfl, rfl⟩
  · exact mark_tasks_users env db tu.1.id "3h"

/-- A send loop built from a table-preserving sender preserves the task and
user tables. -/
theorem run_sends_tasks_users (f : DB → Task × User → Except Unit (DB × List Msg))
    (hf : ∀ (db : DB) (tu : Task × User) (db' : DB) (ms : List Msg),
      f db tu = .ok (db', ms) → db'.tasks = db.tasks ∧ db'.users = db.users) :
    ∀ (l : List (Task × User)) (db : DB),
      (run_sends f l db).1.tasks = db.tasks ∧ (run_sends f l db).1.users = db.users
  | [], _ => ⟨rfl, rfl⟩
  | tu :: rest, db => by
    unfold run_sends
    cases hr : f db tu with
    | error err => exact ⟨rfl, rfl⟩
    | ok r =>
      dsimp only
      have h1 := hf db tu r.1 r.2 (by rw [hr])
      have h2 := run_sends_tasks_users f hf rest r.1
      exact ⟨h2.1.trans h1.1, h2.2.trans h1.2⟩

/-- The 1h getter reads only the task and user tables. -/
theorem get1h_congr (db1 db2 : DB) (now : ℚ) (ht : db1.tasks = db2.tasks)
    (hu : db1.users = db2.users) :
    get_tasks_for_1h_reminder db1 now = get_tasks_for_1h_reminder db2 now := by
  unfold get_tasks_for_1h_reminder scan_rows join_assignee
  rw [ht, hu]

/-- A send loop whose sender only adds rows of kind `k` only adds rows of
kind `k`. -/
theorem run_sends_rows (f : DB → Task × User → Except Unit (DB × List Msg)) (k : String)
    (hf : ∀ (db : DB) (tu : Task × User) (db' : DB) (ms : List Msg),
      f db tu = .ok (db', ms) →
      ∀ e ∈ db'.task_notifications, e ∈ db.task_notifications ∨ e.2 = k) :
    ∀ (l : List (Task × User)) (db : DB) (e : Nat × String),
      e ∈ (run_sends f l db).1.task_notifications →
      e ∈ db.task_notifications ∨ e.2 = k
  | [], _, _, he => Or.inl he
  | tu :: rest, db, e, he => by
    unfold run_sends at he
    cases hr : f db tu with
    | error err =>
      rw [hr] at he
      exact Or.inl he
    | ok r =>
      rw [hr] at he
      dsimp only at he
      rcases run_sends_rows f k hf rest r.1 e he with h | h
      · exact hf db tu r.1 r.2 (by rw [hr]) e h
      · exact Or.inr h

/-- The 8h sender only adds `"24h"` rows. -/
theorem send_24h_rows_kind (env : Env) (sOf : Nat → NotificationSettings)
    (now_tod : Nat) :
    ∀ (db : DB) (tu : Task × User) (db' : DB) (ms : List Msg),
      send_24h_reminder env sOf now_tod db tu = .ok (db', ms) →
      ∀ e ∈ db'.task_notifications, e ∈ db.task_notifications ∨ e.2 = "24h" := by
  intro db tu db' ms hok e he
  rcases send_24h_result env sOf now_tod db tu db' ms hok with rfl | rfl
  · exact Or.inl he
  · rcases mem_mark_notification env db tu.1.id "24h" e he with h | h
    · exact Or.inl h
    · exact Or.inr (by rw [h])

/-- The 4h sender only adds `"3h"` rows. -/
theorem send_3h_rows_kind (env : Env) (sOf : Nat → NotificationSettings)
    (now_tod : Nat) :
    ∀ (db : DB) (tu : Task × User) (db' : DB) (ms : List Msg),
      send_3h_reminder env sOf now_tod db tu = .ok (db', ms) →
      ∀ e ∈ db'.task_notifications, e ∈ db.task_notifications ∨ e.2 = "3h" := by
  intro db tu db' ms hok e he
  rcases send_3h_result env sOf now_tod db tu db' ms hok with rfl | rfl
  · exact Or.inl he
  · rcases mem_mark_notification env db tu.1.id "3h" e he with h | h
    · exact Or.inl h
    · exact Or.inr (by rw [h])

/-- The overdue dispatcher only adds `"overdue"` rows. -/
theorem send_overdue_rows_kind (env : Env) (sOf : Nat → NotificationSettings)
    (now_tod : Nat) :
    ∀ (db : DB) (tu : Task × User) (db' : DB) (ms : List Msg),
      send_overdue_notification env sOf now_tod db tu = .ok (db', ms) →
      ∀ e ∈ db'.task_notifications, e ∈ db.task_notifications ∨ e.2 = "overdue" := by
  intro db tu db' ms hok e he
  rcases send_overdue_result env sOf now_tod db tu db' ms hok with rfl | rfl
  · exact Or.inl he
  · rcases mem_mark_notification env db tu.1.id "overdue" e he with h | h
    · exact Or.inl h
    · exact Or.inr (by rw [h])

/-- The 1h sender adds no rows at all. -/
theorem send_1h_rows_kind (env : Env) (sOf : Nat → NotificationSettings)
    (now_tod : Nat) :
    ∀ (db : DB) (tu : Task × User) (db' : DB) (ms : List Msg),
      send_1h_reminder env sOf now_tod db tu = .ok (db', ms) →
      ∀ e ∈ db'.task_notifications, e ∈ db.task_notifications ∨ e.2 = "overdue" := by
  intro db tu db' ms hok e he
  rw [send_1h_eq] at hok
  injection hok with hok
  injection hok with h1 h2
  subst h1
  exact Or.inl he

/-- The scan only ever inserts dedup rows of the three deduped kinds: no
`"1h"` row is ever written. -/
theorem scan_log_kinds (env : Env) (sOf : Nat → NotificationSettings)
    (now : ℚ) (now_tod : Nat) (db : DB) :
    ∀ e ∈ (check_and_send_notifications env sOf now now_tod db).1.task_notifications,
      e ∈ db.task_notifications ∨ e.2 = "24h" ∨ e.2 = "3h" ∨ e.2 = "overdue" := by
  intro e he
  have H24 := run_sends_rows _ "24h" (send_24h_rows_kind env sOf now_tod)
  have H3 := run_sends_rows _ "3h" (send_3h_rows_kind env sOf now_tod)
  have H1 := run_sends_rows _ "overdue" (send_1h_rows_kind env sOf now_tod)
  have HOD := run_sends_rows _ "overdue" (send_overdue_rows_kind env sOf now_tod)
  unfold check_and_send_notifications at he
  dsimp only at he
  split at he
  · rcases H24 _ _ _ he with h | h
    · exact Or.inl h
    · exact Or.inr (Or.inl h)
  · split at he
    · dsimp only at he
      rcases H3 _ _ _ he with h | h
      · rcases H24 _ _ _ h with h' | h'
        · exact Or.inl h'
        · exact Or.inr (Or.inl h')
      · exact Or.inr (Or.inr (Or.inl h))
    · split at he
      · dsimp only at he
        rcases H1 _ _ _ he with h | h
        · rcases H3 _ _ _ h with h' | h'
          · rcases H24 _ _ _ h' with h'' | h''
            · exact Or.inl h''
            · exact Or.inr (Or.inl h'')
          · exact Or.inr (Or.inr (Or.inl h'))
        · exact Or.inr (Or.inr (Or.inr h))
      · dsimp only at he
        rcases HOD _ _ _ he with h | h
        · rcases H1 _ _ _ h with h' | h'
          · rcases H3 _ _ _ h' with h'' | h''
            · rcases H24 _ _ _ h'' with h3 | h3
              · exact Or.inl h3
              · exact Or.inr (Or.inl h3)
            · exact Or.inr (Or.inr (Or.inl h''))
          · exact Or.inr (Or.inr (Or.inr h'))
        · exact Or.inr (Or.inr (Or.inr h))

/-- A selected (joined, preference-permitted, deliverable) pair gets its 1h
message from the 1h loop. -/
theorem run_sends_1h_mem (env : Env) (sOf : Nat → NotificationSettings)
    (now_tod : Nat) :
    ∀ (l : List (Task × User)) (db : DB) (tu : Task × User), tu ∈ l →
      should_send_notification (sOf tu.2.id) now_tod "1h" = true →
      env.deliver_ok tu.2.telegram_id = true →
      (⟨tu.2.telegram_id, "1h"⟩ : Msg) ∈
        (run_sends (send_1h_reminder env sOf now_tod) l db).2.1
  | [], _, tu, hmem, _, _ => absurd hmem (List.not_mem_nil tu)
  | x :: rest, db, tu, hmem, hs, hd => by
    unfold run_sends
    rw [send_1h_eq env sOf now_tod db x]
    dsimp only
    rw [List.mem_append]
    rcases List.mem_cons.mp hmem with heq | hmem'
    · subst heq
      left
      simp [hs, hd]
    · right
      exact run_sends_1h_mem env sOf now_tod rest db tu hmem' hs hd

/-- Selection of the 45-minute task by the 1h getter of `db_45`. -/
theorem t45_selected : (t45, employee1) ∈ get_tasks_for_1h_reminder db_45 0 := by
  have hsr : scan_rows db_45 = [(t45, employee1)] := by decide
  unfold get_tasks_for_1h_reminder
  rw [hsr]
  have hw : in_1h_window 2700 0 = true := by
    rw [in_1h_window, minutes_until]
    norm_num
  simp [List.filter, t45, hw]

/-- C8: the 1h milestone bypasses the dedup log entirely — selection into
the 1h list is independent of the notification log, the 1h sender neither
reads nor writes the log and leaves the store untouched, the scan never
inserts a `"1h"` row, and a task in the 1h window whose assignee's
preferences and gateway permit is messaged on every scan whatever the log
contains. -/
theorem one_hour_reminder_every_tick (env : Env) (sOf : Nat → NotificationSettings)
    (now : ℚ) (now_tod : Nat) (db : DB) (t : Task) (u : User) :
    (∀ log, get_tasks_for_1h_reminder { db with task_notifications := log } now =
      get_tasks_for_1h_reminder db now) ∧
    (send_1h_reminder env sOf now_tod db (t, u) =
      .ok (db, if should_send_notification (sOf u.id) now_tod "1h" &&
            env.deliver_ok u.telegram_id then [⟨u.telegram_id, "1h"⟩] else [])) ∧
    (∀ e ∈ (check_and_send_notifications env sOf now now_tod db).1.task_notifications,
      e ∈ db.task_notifications ∨ e.2 = "24h" ∨ e.2 = "3h" ∨ e.2 = "overdue") ∧
    ((∀ tid k, env.check_fails tid k = false) →
      (t, u) ∈ get_tasks_for_1h_reminder db now →
      should_send_notification (sOf u.id) now_tod "1h" = true →
      env.deliver_ok u.telegram_id = true →
      (⟨u.telegram_id, "1h"⟩ : Msg) ∈
        (check_and_send_notifications env sOf now now_tod db).2.1) := by
  refine ⟨fun log => get1h_congr _ db now rfl rfl,
    send_1h_eq env sOf now_tod db (t, u),
    scan_log_kinds env sOf now now_tod db, ?_⟩
  intro hcf hsel hs hd
  have ok24 : ∀ (l : List (Task × User)) (dbx : DB),
      (run_sends (send_24h_reminder env sOf now_tod) l dbx).2.2 = true :=
    run_sends_all_ok _ fun dbx tux =>
      send_24h_never_errors env sOf now_tod dbx tux (hcf _ _)
  have ok3 : ∀ (l : List (Task × User)) (dbx : DB),
      (run_sends (send_3h_reminder env sOf now_tod) l dbx).2.2 = true :=
    run_sends_all_ok _ fun dbx tux =>
      send_3h_never_errors env sOf now_tod dbx tux (hcf _ _)
  have ok1 : ∀ (l : List (Task × User)) (dbx : DB),
      (run_sends (send_1h_reminder env sOf now_tod) l dbx).2.2 = true :=
    fun l dbx => (run_sends_1h_state env sOf now_tod l dbx).2
  have pres24 := run_sends_tasks_users _ (send_24h_tasks_users env sOf now_tod)
  have pres3 := run_sends_tasks_users _ (send_3h_tasks_users env sOf now_tod)
  unfold check_and_send_notifications
  dsimp only
  rw [ok24, if_neg (show ¬(true = false) by simp)]
  rw [ok3, if_neg (show ¬(true = false) by simp)]
  rw [ok1, if_neg (show ¬(true = false) by simp)]
  dsimp only
  simp only [List.mem_append]
  refine Or.inl (Or.inr ?_)
  refine run_sends_1h_mem env sOf now_tod _ _ (t, u) ?_ hs hd
  rw [get1h_congr _ db now (((pres3 _ _).1).trans ((pres24 _ _).1))
    (((pres3 _ _).2).trans ((pres24 _ _).2))]
  exact hsel

/-- Witness for C8: the 45-minute task with every deduped kind already
logged is still messaged by the scan. -/
theorem one_hour_reminder_every_tick_witness :
    (⟨"tg5", "1h"⟩ : Msg) ∈
      (check_and_send_notifications envOk default_settings_of 0 540 db_45).2.1 :=
  (one_hour_reminder_every_tick envOk default_settings_of 0 540 db_45
      t45 employee1).2.2.2 (fun _ _ => rfl) t45_selected (by decide) rfl

/-! ## C10: overdue admin copies -/

/-- C10: the overdue dispatch is gated solely by the assignee's settings —
a veto (disabled kind or quiet hours) on the assignee suppresses the copies
to every admin too, and the dispatch result never depends on any settings
row other than the assignee's. -/
theorem overdue_admins_gated_by_assignee (env : Env)
    (sOf1 sOf2 : Nat → NotificationSettings) (now_tod : Nat) (db : DB)
    (tu : Task × User) :
    (env.check_fails tu.1.id "overdue" = false →
      should_send_notification (sOf1 tu.2.id) now_tod "overdue" = false →
      send_overdue_notification env sOf1 now_tod db tu = .ok (db, [])) ∧
    (sOf1 tu.2.id = sOf2 tu.2.id →
      send_overdue_notification env sOf1 now_tod db tu =
        send_overdue_notification env sOf2 now_tod db tu) := by
  constructor
  · intro hc hv
    unfold send_overdue_notification check_notification_sent
    rw [hc]
    simp [hv]
  · intro hagree
    unfold send_overdue_notification
    rw [hagree]

/-- Witness for C10: with the assignee's overdue kind disabled, nobody —
admins included — receives the overdue dispatch for the concrete overdue
task. -/
theorem overdue_admins_gated_by_assignee_witness :
    send_overdue_notification envOk disabled_overdue_of 540 db_overdue
      (overdue_task, employee1) = .ok (db_overdue, []) :=
  (overdue_admins_gated_by_assignee envOk disabled_overdue_of disabled_overdue_of
    540 db_overdue (overdue_task, employee1)).1 rfl (by decide)

end TaskMaster
